import Mathlib

/-!
Shallow embedding of the extraction snippets of
`docs/tutorials/extractingdata.ipynb` (the eddy tutorial on extracting
annuli from a 3D data cube), together with theorems settling the spec
claims about them.

Arrays are modelled as Lean lists (2-D arrays as lists of rows), numeric
values as rationals.  Fallible numpy operations return `Option`.
-/

/-- A FITS header: keyword/value pairs, looked up by keyword. -/
abbrev Header := List (String × ℚ)

/-- The fields of a `rotationmap` cube that the snippets touch: the 3-D
data array (channel, y, x) and the FITS header. -/
structure Cube where
  data : List (List (List ℚ))
  header : Header

/-- Observing geometry passed to `disk_coords`: `x0`, `y0`, `inc`, `PA`,
and the optional surface parameters `z0`, `psi` and `tilt`. -/
structure Geometry where
  x0 : ℚ
  y0 : ℚ
  inc : ℚ
  PA : ℚ
  z0 : Option ℚ
  psi : Option ℚ
  tilt : Option ℚ

/-- Modelled from the spec: `rotationmap.disk_coords` lives in
`eddy/fit_cube.py`, which is not part of this excerpt; per the spec its
contract is "given observing geometry, map pixel sky-coordinates to
disk-frame radius and polar angle".  The deprojection formula itself is
abstracted as `rt`, mapping a pixel's sky coordinates to its
(radius, polar angle) pair under geometry `g`; `disk_coords` applies it
pixelwise over the 2-D pixel grid and returns `(rvals, tvals)`. -/
def disk_coords (rt : Geometry → ℚ × ℚ → ℚ × ℚ) (g : Geometry)
    (pixels : List (List (ℚ × ℚ))) : List (List ℚ) × List (List ℚ) :=
  (pixels.map (fun row => row.map (fun p => (rt g p).1)),
   pixels.map (fun row => row.map (fun p => (rt g p).2)))

/-- `np.logical_and(rvals >= r_min, rvals <= r_max)` followed by
`.flatten()`: the elementwise annulus test on the 2-D radius array,
flattened to 1-D. -/
def annulusMask (r_min r_max : ℚ) (rvals : List (List ℚ)) : List Bool :=
  (rvals.map (fun row => row.map (fun r => decide (r_min ≤ r) && decide (r ≤ r_max)))).flatten

/-- Numpy boolean-mask indexing `xs[mask]` of a 1-D array: keep the
entries whose mask bit is `true`. -/
def applyMask (xs : List ℚ) (mask : List Bool) : List ℚ :=
  ((xs.zip mask).filter (fun p => p.2)).map Prod.fst

/-- `theta = tvals.flatten()[mask]`. -/
def thetaOf (tvals : List (List ℚ)) (mask : List Bool) : List ℚ :=
  applyMask tvals.flatten mask

/-- A numpy array of the two dimensionalities the spectra snippet
produces: 1-D or 2-D. -/
inductive NpArr where
  | one : List ℚ → NpArr
  | two : List (List ℚ) → NpArr
deriving DecidableEq

/-- `.flatten()`: a 1-D array is unchanged, a 2-D array is flattened
row-major. -/
def NpArr.flatten : NpArr → NpArr
  | NpArr.one xs => NpArr.one xs
  | NpArr.two xss => NpArr.one xss.flatten

/-- `a[:, mask].T`: boolean-mask the second axis, then transpose.  On a
1-D array numpy raises `IndexError: too many indices for array`, so the
result is `none`. -/
def NpArr.colMaskT : NpArr → List Bool → Option NpArr
  | NpArr.two xss, mask => some (NpArr.two (List.transpose (xss.map (fun row => applyMask row mask))))
  | NpArr.one _, _ => none

/-- The tutorial's spectra snippet, verbatim:
`spectra = cube.data.reshape(cube.data.shape[0], -1)` then
`spectra = spectra.flatten()[:, mask].T`. -/
def spectraSnippet (c : Cube) (mask : List Bool) : Option NpArr :=
  NpArr.colMaskT (NpArr.flatten (NpArr.two (c.data.map List.flatten))) mask

/-- `np.arange(q)` for a scalar `q`: the integers `0, 1, ...` up to
`⌈q⌉ - 1` (empty when `q ≤ 0`). -/
def npArange (q : ℚ) : List ℚ :=
  (List.range (max 0 (Int.ceil q)).toNat).map (fun i : ℕ => (i : ℚ))

/-- The velocity-axis snippet:
`velax = np.arange(naxis3) - crpix3 + 1.0` then
`velax = crval3 + velax * cdelt3`. -/
def velaxOf (naxis3 crpix3 crval3 cdelt3 : ℚ) : List ℚ :=
  ((npArange naxis3).map (fun v => v - crpix3 + 1)).map (fun v => crval3 + v * cdelt3)

/-- The velocity-axis snippet including the header lookups; any missing
keyword is a Python `KeyError`, modelled as `none`. -/
def velaxFromHeader (c : Cube) : Option (List ℚ) := do
  let n ← c.header.lookup "naxis3"
  let p ← c.header.lookup "crpix3"
  let v ← c.header.lookup "crval3"
  let d ← c.header.lookup "cdelt3"
  pure (velaxOf n p v d)

/-- The velocity-axis extraction as a state-passing operation: the
result paired with the cube after the operation (the snippet never
writes to the cube). -/
def velaxRun (c : Cube) : Option (List ℚ) × Cube :=
  (velaxFromHeader c, c)

/-- The frequency-to-velocity conversion:
`velax = 2.9979e8 * (nu - velax) / nu`, for one frequency value. -/
def freqToVel (nu f : ℚ) : ℚ :=
  2.9979e8 * (nu - f) / nu

/-- The conversion snippet: `nu = cube.header['restfreq']` then the
elementwise conversion; a missing `restfreq` is a `KeyError`. -/
def convertVelax (c : Cube) (velax : List ℚ) : Option (List ℚ) := do
  let nu ← c.header.lookup "restfreq"
  pure (velax.map (fun f => freqToVel nu f))

/-- The conversion as a state-passing operation on the cube. -/
def convertRun (c : Cube) (velax : List ℚ) : Option (List ℚ) × Cube :=
  (convertVelax c velax, c)

/-- The whole extraction workflow of the tutorial on one cube:
deproject, mask, take spectra and angles, rebuild the velocity axis.
Returns the four outputs together with the cube after the run. -/
def extractAll (rt : Geometry → ℚ × ℚ → ℚ × ℚ) (g : Geometry)
    (pixels : List (List (ℚ × ℚ))) (c : Cube) (r_min r_max : ℚ) :
    (List Bool × Option NpArr × List ℚ × Option (List ℚ)) × Cube :=
  let rv := (disk_coords rt g pixels).1
  let tv := (disk_coords rt g pixels).2
  let mask := annulusMask r_min r_max rv
  ((mask, spectraSnippet c mask, thetaOf tv mask, velaxFromHeader c), c)

theorem npArange_natCast (n : ℕ) :
    npArange (n : ℚ) = (List.range n).map (fun i : ℕ => (i : ℚ)) := by
  simp [npArange, Int.ceil_natCast]

theorem velaxOf_eq (n : ℕ) (p v d : ℚ) :
    velaxOf (n : ℚ) p v d
      = (List.range n).map (fun i : ℕ => v + ((i : ℚ) - p + 1) * d) := by
  rw [velaxOf, npArange_natCast, List.map_map, List.map_map]
  rfl

theorem velaxOf_length (n : ℕ) (p v d : ℚ) :
    (velaxOf (n : ℚ) p v d).length = n := by
  rw [velaxOf_eq, List.length_map, List.length_range]

theorem velaxOf_get (n : ℕ) (p v d : ℚ) (i : ℕ) (h : i < n) :
    (velaxOf (n : ℚ) p v d).get ⟨i, by rw [velaxOf_length]; exact h⟩
      = v + ((i : ℚ) - p + 1) * d := by
  simp only [velaxOf_eq, List.get_eq_getElem, List.getElem_map, List.getElem_range]

/-- Claim C1: the spectra snippet cannot satisfy the shape contract: it
flattens the reshaped cube to a 1-D array and then indexes it along two
axes (`spectra.flatten()[:, mask].T`), which is a numpy `IndexError` on
every input, so no `(N, M)` spectra array is ever produced. -/
theorem spectraSnippet_ill_formed (c : Cube) (mask : List Bool) :
    spectraSnippet c mask = none := rfl

/-- Claim C2: for numeric header keywords, the reconstructed velocity
axis has exactly `naxis3` entries, every two consecutive entries differ
by exactly `cdelt3`, and the entry at zero-based index `crpix3 - 1`
equals `crval3`. -/
theorem velax_header_contract (n k : ℕ) (crval3 cdelt3 : ℚ)
    (hk : 1 ≤ k) (hkn : k ≤ n) :
    (velaxOf (n : ℚ) (k : ℚ) crval3 cdelt3).length = n ∧
    List.Chain' (fun a b => b = a + cdelt3) (velaxOf (n : ℚ) (k : ℚ) crval3 cdelt3) ∧
    (velaxOf (n : ℚ) (k : ℚ) crval3 cdelt3).get ⟨k - 1, by rw [velaxOf_length]; omega⟩
      = crval3 := by
  refine ⟨velaxOf_length n k crval3 cdelt3, ?_, ?_⟩
  · rw [velaxOf_eq, List.chain'_iff_get]
    intro i hlt
    simp only [List.length_map, List.length_range] at hlt
    simp only [List.get_eq_getElem, List.getElem_map, List.getElem_range]
    push_cast
    ring
  · refine (velaxOf_get n k crval3 cdelt3 (k - 1) (by omega)).trans ?_
    rw [Nat.cast_sub hk]
    push_cast
    ring

/-- Witness for C2 at `naxis3 = 3`, `crpix3 = 2`, `crval3 = 5`,
`cdelt3 = 1/2`. -/
theorem velax_header_contract_witness :
    (1 ≤ 2 ∧ 2 ≤ 3) ∧
    ((velaxOf ((3 : ℕ) : ℚ) ((2 : ℕ) : ℚ) 5 (1/2)).length = 3 ∧
     List.Chain' (fun a b => b = a + (1/2 : ℚ))
       (velaxOf ((3 : ℕ) : ℚ) ((2 : ℕ) : ℚ) 5 (1/2)) ∧
     (velaxOf ((3 : ℕ) : ℚ) ((2 : ℕ) : ℚ) 5 (1/2)).get
       ⟨2 - 1, by rw [velaxOf_length]; omega⟩ = 5) :=
  ⟨⟨by decide, by decide⟩, velax_header_contract 3 2 5 (1/2) (by decide) (by decide)⟩

/-- Claim C3: for nonzero rest frequency `nu`, the conversion returns
`2.9979e8 * (nu - f) / nu`, maps `f = nu` to `0`, and for positive `nu`
is strictly decreasing in the frequency. -/
theorem freqToVel_contract (nu f f₁ f₂ : ℚ) (_hnu : nu ≠ 0) :
    freqToVel nu f = 2.9979e8 * (nu - f) / nu ∧
    freqToVel nu nu = 0 ∧
    (0 < nu → f₁ < f₂ → freqToVel nu f₂ < freqToVel nu f₁) := by
  refine ⟨rfl, by simp [freqToVel], fun hpos hlt => ?_⟩
  have h29 : (0 : ℚ) < 2.9979e8 := by norm_num
  have hmul : 2.9979e8 * (nu - f₂) < 2.9979e8 * (nu - f₁) :=
    mul_lt_mul_of_pos_left (by linarith) h29
  have hinv : 0 < nu⁻¹ := inv_pos.mpr hpos
  simpa [freqToVel, div_eq_mul_inv] using mul_lt_mul_of_pos_right hmul hinv

/-- Witness for C3 at `nu = 2`, `f = 1`, `f₁ = 0`, `f₂ = 1`. -/
theorem freqToVel_contract_witness :
    (2 : ℚ) ≠ 0 ∧
    (freqToVel 2 1 = 2.9979e8 * (2 - 1) / 2 ∧
     freqToVel 2 2 = 0 ∧
     (0 < (2 : ℚ) → (0 : ℚ) < 1 → freqToVel 2 1 < freqToVel 2 0)) :=
  ⟨by norm_num, freqToVel_contract 2 1 0 1 (by norm_num)⟩

/-- Claim C4: the velocity-axis extraction does no validation or
defaulting: if any of `naxis3`, `crpix3`, `crval3`, `cdelt3` is absent
the lookup fails and yields no axis, the cube is unchanged by the failed
run, and likewise a missing `restfreq` fails the conversion step without
touching the cube. -/
theorem velax_missing_key (c : Cube) (vs : List ℚ) :
    ((c.header.lookup "naxis3" = none ∨ c.header.lookup "crpix3" = none ∨
      c.header.lookup "crval3" = none ∨ c.header.lookup "cdelt3" = none) →
      (velaxRun c).1 = none ∧ (velaxRun c).2 = c) ∧
    (c.header.lookup "restfreq" = none →
      (convertRun c vs).1 = none ∧ (convertRun c vs).2 = c) := by
  constructor
  · intro h
    refine ⟨?_, rfl⟩
    show velaxFromHeader c = none
    unfold velaxFromHeader
    rcases h with h | h | h | h <;>
      cases hn : c.header.lookup "naxis3" <;>
      cases hp : c.header.lookup "crpix3" <;>
      cases hv : c.header.lookup "crval3" <;>
      cases hd : c.header.lookup "cdelt3" <;>
      simp_all
  · intro hr
    refine ⟨?_, rfl⟩
    show convertVelax c vs = none
    unfold convertVelax
    rw [hr]
    rfl

/-- Witness for C4 on a cube with an empty header: both the missing
axis-keyword case and the missing `restfreq` case are exercised. -/
theorem velax_missing_key_witness :
    ((Cube.mk [] []).header.lookup "naxis3" = none ∧
     (Cube.mk [] []).header.lookup "restfreq" = none) ∧
    ((velaxRun (Cube.mk [] [])).1 = none ∧
     (velaxRun (Cube.mk [] [])).2 = Cube.mk [] [] ∧
     (convertRun (Cube.mk [] []) []).1 = none ∧
     (convertRun (Cube.mk [] []) []).2 = Cube.mk [] []) :=
  ⟨⟨rfl, rfl⟩,
   ⟨((velax_missing_key (Cube.mk [] []) []).1 (Or.inl rfl)).1,
    ((velax_missing_key (Cube.mk [] []) []).1 (Or.inl rfl)).2,
    ((velax_missing_key (Cube.mk [] []) []).2 rfl).1,
    ((velax_missing_key (Cube.mk [] []) []).2 rfl).2⟩⟩

/-- Claim C5: the extraction workflow is deterministic: equal inputs
(cube, geometry, deprojection, pixel grid, annulus bounds) give equal
mask, spectra, theta and velax outputs, with no shared mutable state. -/
theorem extract_deterministic
    (rt rt₂ : Geometry → ℚ × ℚ → ℚ × ℚ) (g g₂ : Geometry)
    (pixels pixels₂ : List (List (ℚ × ℚ))) (c c₂ : Cube)
    (r_min r_max rmin₂ rmax₂ : ℚ)
    (h1 : rt = rt₂) (h2 : g = g₂) (h3 : pixels = pixels₂) (h4 : c = c₂)
    (h5 : r_min = rmin₂) (h6 : r_max = rmax₂) :
    extractAll rt g pixels c r_min r_max = extractAll rt₂ g₂ pixels₂ c₂ rmin₂ rmax₂ := by
  subst h1 h2 h3 h4 h5 h6
  rfl

/-- Witness for C5: two runs on the same concrete inputs agree. -/
theorem extract_deterministic_witness :
    ((fun (_ : Geometry) (p : ℚ × ℚ) => p) = (fun (_ : Geometry) (p : ℚ × ℚ) => p)) ∧
    extractAll (fun _ p => p) (Geometry.mk 0 0 0 0 none none none) [[(1, 2)]]
        (Cube.mk [[[3]]] [("naxis3", 1)]) 0 1
      = extractAll (fun _ p => p) (Geometry.mk 0 0 0 0 none none none) [[(1, 2)]]
        (Cube.mk [[[3]]] [("naxis3", 1)]) 0 1 :=
  ⟨rfl, extract_deterministic _ _ _ _ _ _ _ _ _ _ _ _ rfl rfl rfl rfl rfl rfl⟩

/-- Claim C6: `disk_coords` returns radius and angle arrays holding
exactly one value per pixel of the map: both components have the same
row structure (same row lengths, hence the same pixel count) as the
pixel grid. -/
theorem disk_coords_one_per_pixel (rt : Geometry → ℚ × ℚ → ℚ × ℚ) (g : Geometry)
    (pixels : List (List (ℚ × ℚ))) :
    ((disk_coords rt g pixels).1).map List.length = pixels.map List.length ∧
    ((disk_coords rt g pixels).2).map List.length = pixels.map List.length := by
  constructor <;>
    simp [disk_coords, List.map_map, Function.comp_def]

theorem annulusMask_eq_map (r_min r_max : ℚ) (rvals : List (List ℚ)) :
    annulusMask r_min r_max rvals
      = rvals.flatten.map (fun r => decide (r_min ≤ r) && decide (r ≤ r_max)) := by
  rw [annulusMask, List.map_flatten]

theorem annulusMask_length (r_min r_max : ℚ) (rvals : List (List ℚ)) :
    (annulusMask r_min r_max rvals).length = rvals.flatten.length := by
  rw [annulusMask_eq_map, List.length_map]

theorem applyMask_cons (x : ℚ) (m : Bool) (xs : List ℚ) (ms : List Bool) :
    applyMask (x :: xs) (m :: ms)
      = if m then x :: applyMask xs ms else applyMask xs ms := by
  cases m <;> simp [applyMask]

theorem applyMask_map (p : ℚ → Bool) (xs ys : List ℚ) (h : xs.length = ys.length) :
    applyMask xs (ys.map p)
      = ((xs.zip ys).filter (fun q => p q.2)).map Prod.fst := by
  induction xs generalizing ys with
  | nil => simp [applyMask]
  | cons a as ih =>
    cases ys with
    | nil => simp at h
    | cons b bs =>
      have h2 : as.length = bs.length := by simpa using h
      rw [List.map_cons, applyMask_cons, List.zip_cons_cons, List.filter_cons]
      cases hpb : p b <;> simp [hpb, ih bs h2]

/-- Claim C7: a flattened mask entry is `true` exactly when the pixel's
deprojected radius lies in the closed annulus `[r_min, r_max]`; `theta`
is exactly the polar angles of those pixels, and is empty whenever
`r_min > r_max`. -/
theorem mask_selects_annulus (r_min r_max : ℚ) (rvals tvals : List (List ℚ))
    (hlen : tvals.flatten.length = rvals.flatten.length) :
    annulusMask r_min r_max rvals
      = rvals.flatten.map (fun r => decide (r_min ≤ r) && decide (r ≤ r_max)) ∧
    thetaOf tvals (annulusMask r_min r_max rvals)
      = ((tvals.flatten.zip rvals.flatten).filter
          (fun q => decide (r_min ≤ q.2) && decide (q.2 ≤ r_max))).map Prod.fst ∧
    (r_max < r_min → thetaOf tvals (annulusMask r_min r_max rvals) = []) := by
  have hmap := annulusMask_eq_map r_min r_max rvals
  have hth : thetaOf tvals (annulusMask r_min r_max rvals)
      = ((tvals.flatten.zip rvals.flatten).filter
          (fun q => decide (r_min ≤ q.2) && decide (q.2 ≤ r_max))).map Prod.fst := by
    rw [thetaOf, hmap, applyMask_map _ _ _ hlen]
  refine ⟨hmap, hth, fun hlt => ?_⟩
  rw [hth]
  have hnil : (tvals.flatten.zip rvals.flatten).filter
      (fun q => decide (r_min ≤ q.2) && decide (q.2 ≤ r_max)) = [] := by
    refine List.filter_eq_nil_iff.mpr (fun q _ => ?_)
    simp only [Bool.and_eq_true, decide_eq_true_eq, not_and]
    intro h1 h2
    linarith
  rw [hnil, List.map_nil]

/-- Witness for C7 at `r_min = 0`, `r_max = 2`, `rvals = [[1, 3]]`,
`tvals = [[10, 20]]`. -/
theorem mask_selects_annulus_witness :
    ([[(10 : ℚ), 20]].flatten.length = [[(1 : ℚ), 3]].flatten.length) ∧
    (annulusMask 0 2 [[(1 : ℚ), 3]]
        = [[(1 : ℚ), 3]].flatten.map (fun r => decide ((0 : ℚ) ≤ r) && decide (r ≤ (2 : ℚ))) ∧
     thetaOf [[(10 : ℚ), 20]] (annulusMask 0 2 [[(1 : ℚ), 3]])
        = (([[(10 : ℚ), 20]].flatten.zip [[(1 : ℚ), 3]].flatten).filter
            (fun q => decide ((0 : ℚ) ≤ q.2) && decide (q.2 ≤ (2 : ℚ)))).map Prod.fst ∧
     ((2 : ℚ) < 0 → thetaOf [[(10 : ℚ), 20]] (annulusMask 0 2 [[(1 : ℚ), 3]]) = [])) :=
  ⟨rfl, mask_selects_annulus 0 2 [[1, 3]] [[10, 20]] rfl⟩

/-- Claim C8: the extraction only reads the cube: after the whole run
the cube's `data` and `header` fields are what they were before. -/
theorem extract_readonly (rt : Geometry → ℚ × ℚ → ℚ × ℚ) (g : Geometry)
    (pixels : List (List (ℚ × ℚ))) (c : Cube) (r_min r_max : ℚ) :
    ((extractAll rt g pixels c r_min r_max).2).data = c.data ∧
    ((extractAll rt g pixels c r_min r_max).2).header = c.header :=
  ⟨rfl, rfl⟩

/-- Claim C9: the mask is monotone in the annulus bounds: a pixel
selected for `[r_min, r_max]` is also selected for the wider annulus
`[rmin₂, rmax₂]` whenever `rmin₂ ≤ r_min` and `r_max ≤ rmax₂`. -/
theorem annulusMask_monotone (r_min r_max rmin₂ rmax₂ : ℚ) (rvals : List (List ℚ))
    (hmin : rmin₂ ≤ r_min) (hmax : r_max ≤ rmax₂) (i : ℕ)
    (hi : i < rvals.flatten.length)
    (hsel : (annulusMask r_min r_max rvals).get
      ⟨i, by rw [annulusMask_length]; exact hi⟩ = true) :
    (annulusMask rmin₂ rmax₂ rvals).get
      ⟨i, by rw [annulusMask_length]; exact hi⟩ = true := by
  simp only [List.get_eq_getElem] at hsel ⊢
  rw [List.getElem_of_eq (annulusMask_eq_map r_min r_max rvals)] at hsel
  rw [List.getElem_of_eq (annulusMask_eq_map rmin₂ rmax₂ rvals)]
  simp only [List.getElem_map, Bool.and_eq_true, decide_eq_true_eq] at hsel ⊢
  exact ⟨le_trans hmin hsel.1, le_trans hsel.2 hmax⟩

/-- Witness for C9: pixel of radius 1 selected by `[1, 2]` is selected
by the wider `[0, 3]`. -/
theorem annulusMask_monotone_witness :
    ((0 : ℚ) ≤ 1 ∧ (2 : ℚ) ≤ 3 ∧ 0 < [[(1 : ℚ)]].flatten.length ∧
     (annulusMask 1 2 [[(1 : ℚ)]]).get
       ⟨0, by rw [annulusMask_length]; decide⟩ = true) ∧
    (annulusMask 0 3 [[(1 : ℚ)]]).get
      ⟨0, by rw [annulusMask_length]; decide⟩ = true :=
  ⟨⟨by norm_num, by norm_num, by decide, by decide⟩,
   annulusMask_monotone 1 2 0 3 [[(1 : ℚ)]] (by norm_num) (by norm_num) 0
     (by decide) (by decide)⟩
